/-
Verification of the OSINT news-monitor backend: a shallow embedding of the
geo-tagging / classification engine (backend/processors/geo_tagger.py), the
event store and query layer (backend/api/main.py), and the scraper adapters
(backend/scrapers/news_scraper.py, backend/scrapers/twitter_scraper.py),
with theorems settling the spec's claims about them.

Numeric values (coordinates) are modelled as exact rationals; Python's
case-insensitive substring matching is modelled character-by-character on
ASCII text, which covers every keyword table and every input considered here.
-/
import Mathlib

namespace OsintMonitor

/-! ## String primitives: Python `str.lower` and the `in` operator -/

/-- ASCII lowering of one character, as Python `str.lower` acts on ASCII. -/
def lowerChar (c : Char) : Char :=
  if 'A' ≤ c ∧ c ≤ 'Z' then Char.ofNat (c.toNat + 32) else c

/-- Model of Python `text.lower()` (ASCII range). -/
def pyLower (s : String) : String :=
  String.mk (s.data.map lowerChar)

/-- Substring test on character lists: `hasSub n h` is true iff `n` occurs
contiguously inside `h` (Python `n in h`; the empty needle always matches). -/
def hasSub (needle : List Char) : List Char → Bool
  | [] => needle.isEmpty
  | c :: rest => List.isPrefixOf needle (c :: rest) || hasSub needle rest

/-- Model of Python `kw in s` on strings. -/
def kwIn (kw : String) (s : String) : Bool :=
  hasSub kw.data s.data

/-! ## Keyword tables (geo_tagger.py lines 23–108), transcribed verbatim -/

def CATEGORY_KEYWORDS : List (String × List String) :=
  [("conflict",  ["attack", "airstrike", "explosion", "missile", "troops", "battle",
                  "war", "military", "drone", "shelling", "killed", "wounded", "gun",
                  "bomb", "forces", "offensive", "ceasefire", "strike"]),
   ("disaster",  ["earthquake", "flood", "hurricane", "tornado", "wildfire", "tsunami",
                  "eruption", "cyclone", "storm", "landslide", "drought", "fire"]),
   ("politics",  ["election", "coup", "protest", "president", "minister", "government",
                  "parliament", "sanctions", "treaty", "vote", "arrested"]),
   ("breaking",  ["breaking", "urgent", "alert", "developing", "just in", "update"])]

/-- Dictionary access `CATEGORY_KEYWORDS[cat]`. -/
def catKws (cat : String) : List String :=
  ((CATEGORY_KEYWORDS.find? (fun p => p.1 == cat)).map (fun p => p.2)).getD []

def TOPIC_KEYWORDS : List (String × List String) :=
  [("war",
    ["war", "warfare", "invasion", "offensive", "airstrike", "shelling", "artillery",
     "troops", "military operation", "front line", "frontline", "combat", "battle",
     "siege", "ceasefire", "missile strike", "drone strike", "armed forces",
     "warzone", "war zone", "casualties", "soldiers killed", "naval", "ground forces",
     "occupation", "liberated", "captured territory", "counter-offensive"]),
   ("protests",
    ["protest", "riot", "demonstration", "unrest", "uprising", "marching", "marchers",
     "demonstrators", "crowd", "clashes with police", "tear gas", "water cannon",
     "civil unrest", "strike", "walkout", "blockade", "occupation", "mob",
     "looting", "burning", "barricade", "crackdown", "dispersed", "detained protesters",
     "activists arrested", "rallied", "rally", "picket", "insurrection"]),
   ("christian_persecution",
    ["christian", "christianity", "church", "cathedral", "pastor", "priest", "bishop",
     "missionary", "cross", "bible", "congregation", "evangelist", "christian minority",
     "religious persecution", "faith", "worship", "sunday service", "christian convert",
     "church attack", "church burned", "church destroyed", "blasphemy", "apostasy",
     "religious freedom", "christian arrested", "christian killed", "anti-christian",
     "christian community", "diocese", "monastery", "convent", "christian school"]),
   ("terrorism",
    ["terrorist", "terrorism", "terror attack", "suicide bomber", "suicide bombing",
     "ied", "improvised explosive", "jihadist", "isis", "isil", "al-qaeda", "al qaeda",
     "boko haram", "al-shabaab", "taliban", "lone wolf", "radicalized", "extremist",
     "car bomb", "vehicle attack", "knife attack", "mass shooting", "hostage",
     "kidnapping", "abduction", "ransom", "beheading", "massacre", "gunman",
     "active shooter", "claimed responsibility", "terror cell", "bomb threat",
     "explosive device", "detonated", "attack on civilians"]),
   ("natural_disasters",
    ["earthquake", "magnitude", "tremor", "aftershock", "seismic",
     "flood", "flooding", "flash flood", "dam breach", "levee",
     "hurricane", "typhoon", "cyclone", "tropical storm", "category",
     "tornado", "twister", "funnel cloud",
     "wildfire", "forest fire", "bushfire", "blaze",
     "tsunami", "tidal wave",
     "volcanic eruption", "volcano", "lava", "ash cloud",
     "landslide", "mudslide", "avalanche",
     "drought", "famine", "heatwave", "heat wave",
     "storm surge", "blizzard", "extreme weather", "disaster zone",
     "emergency declared", "natural disaster", "evacuated", "death toll"])]

def SEVERITY_KEYWORDS : Nat → List String
  | 5 => ["mass casualty", "nuclear", "catastrophic", "major offensive", "capital seized"]
  | 4 => ["dozens killed", "city under attack", "state of emergency", "coup"]
  | 3 => ["casualties", "explosion", "airstrike", "protest", "arrested"]
  | 2 => ["clashes", "tensions", "evacuation", "warning"]
  | _ => []

/-! ## Classification engine (geo_tagger.py lines 91–203) -/

/-- The loop body of `classify_topics`: iterate the topic tables in order,
appending a table's label on its first keyword hit. -/
def topicsLoop (tl : String) : List (String × List String) → List String
  | [] => []
  | (topic, keywords) :: rest =>
    if keywords.any (fun kw => kwIn kw tl) then topic :: topicsLoop tl rest
    else topicsLoop tl rest

/-- `classify_topics` (geo_tagger.py lines 91–100). -/
def classify_topics (text : String) : List String :=
  topicsLoop (pyLower text) TOPIC_KEYWORDS

/-- Inner loops of `classify_category`: first of `cats` whose keyword table
has a hit, if any. -/
def firstCat (tl : String) : List String → Option String
  | [] => none
  | cat :: rest =>
    if (catKws cat).any (fun kw => kwIn kw tl) then some cat else firstCat tl rest

/-- Outer loop of `classify_category` over the breaking keywords: at the first
breaking keyword present, the conflict/disaster/politics tables are re-checked
and the function returns. -/
def breakingLoop (tl : String) : List String → Option String
  | [] => none
  | kw :: rest =>
    if kwIn kw tl then
      some (match firstCat tl ["conflict", "disaster", "politics"] with
            | some cat => cat
            | none => "breaking")
    else breakingLoop tl rest

/-- `classify_category` (geo_tagger.py lines 174–189). -/
def classify_category (text : String) : String :=
  let tl := pyLower text
  match breakingLoop tl (catKws "breaking") with
  | some r => r
  | none =>
    match firstCat tl ["conflict", "disaster", "politics"] with
    | some cat => cat
    | none => "general"

/-- Loop of `classify_severity` over the levels `[5, 4, 3, 2]`. -/
def sevLoop (tl : String) : List Nat → Nat
  | [] => 1
  | lv :: rest =>
    if (SEVERITY_KEYWORDS lv).any (fun kw => kwIn kw tl) then lv
    else sevLoop tl rest

/-- `classify_severity` (geo_tagger.py lines 192–198). -/
def classify_severity (text : String) : Nat :=
  sevLoop (pyLower text) [5, 4, 3, 2]

/-- `is_breaking` (geo_tagger.py lines 201–203). -/
def is_breaking (text : String) : Bool :=
  (catKws "breaking").any (fun kw => kwIn kw (pyLower text))

/-- The spec's description of the category rule (spec §4.4, transcribed from
the claim): breaking table checked first; on a breaking hit the
conflict → disaster → politics tables are re-checked in priority order and
the first match is returned, with "breaking" only when none of the three
matched; otherwise conflict → disaster → politics first match wins, default
"general". -/
def categorySpec (text : String) : String :=
  if (catKws "breaking").any (fun kw => kwIn kw (pyLower text)) then
    if (catKws "conflict").any (fun kw => kwIn kw (pyLower text)) then "conflict"
    else if (catKws "disaster").any (fun kw => kwIn kw (pyLower text)) then "disaster"
    else if (catKws "politics").any (fun kw => kwIn kw (pyLower text)) then "politics"
    else "breaking"
  else
    if (catKws "conflict").any (fun kw => kwIn kw (pyLower text)) then "conflict"
    else if (catKws "disaster").any (fun kw => kwIn kw (pyLower text)) then "disaster"
    else if (catKws "politics").any (fun kw => kwIn kw (pyLower text)) then "politics"
    else "general"

/-! ## Coordinate extractor (geo_tagger.py lines 14–20 and 114–133)

The two regular expressions are deterministic once quantifiers take maximal
munch: in `(-?\d{1,3}\.\d+)\s*[,/]\s*(-?\d{1,3}\.\d+)` every bounded or
starred class is followed by a character it cannot itself match (a digit run
is followed by `.` or the separator, whitespace by `,` or `/`), so greedy
matching with no backtracking reproduces the Python engine, and `re.search`
is the leftmost position where the deterministic matcher succeeds.  The DMS
pattern `(\d{1,3})°(\d{1,2})′([NS])\s+(\d{1,3})°(\d{1,2})′([EW])` is
deterministic for the same reason.  Digit and whitespace classes are taken in
the ASCII range. -/

def isSpaceChar (c : Char) : Bool :=
  c = ' ' || c = '\t' || c = '\n' || c = '\x0d' || c = '\x0b' || c = '\x0c'

/-- Numeric value of a digit run. -/
def digitsToNat (ds : List Char) : Nat :=
  ds.foldl (fun a c => a * 10 + (c.toNat - 48)) 0

/-- A decimal numeral parsed from a coordinate group, kept exact:
`(n, k)` denotes the value `n / 10 ^ k` (what Python's `float()` of the
group string denotes).  Kept unreduced so that the parsing layer is pure
integer arithmetic. -/
abbrev DecNum := Int × Nat

/-- The rational value of a parsed decimal numeral. -/
def decVal (p : DecNum) : ℚ :=
  (p.1 : ℚ) / (10 : ℚ) ^ p.2

/-- Match `-?\d{1,3}\.\d+` at the head of `l`; return the value of the
matched group and the rest of the input. -/
def matchNumber (l : List Char) : Option (DecNum × List Char) :=
  let (neg, l1) := match l with
    | '-' :: rest => (true, rest)
    | _ => (false, l)
  let intDigits := (l1.takeWhile Char.isDigit).take 3
  if intDigits.isEmpty then none
  else
    match l1.drop intDigits.length with
    | '.' :: l2 =>
      let fracDigits := l2.takeWhile Char.isDigit
      if fracDigits.isEmpty then none
      else
        let mag : Int :=
          (digitsToNat intDigits : Int) * 10 ^ fracDigits.length + digitsToNat fracDigits
        some ((if neg then -mag else mag, fracDigits.length), l2.drop fracDigits.length)
    | _ => none

/-- Match the whole decimal-pair pattern at the head of `l`. -/
def matchDecimalPair (l : List Char) : Option (DecNum × DecNum) := do
  let (lat, r1) ← matchNumber l
  match r1.dropWhile isSpaceChar with
  | sep :: r2 =>
    if sep = ',' || sep = '/' then
      let (lon, _) ← matchNumber (r2.dropWhile isSpaceChar)
      some (lat, lon)
    else none
  | [] => none

/-- `re.search` for the decimal pattern: first position (leftmost) at which
the deterministic matcher succeeds. -/
def searchDecimal : List Char → Option (DecNum × DecNum)
  | [] => none
  | c :: rest =>
    match matchDecimalPair (c :: rest) with
    | some p => some p
    | none => searchDecimal rest

/-- The bounds test `-b ≤ n / 10 ^ k ≤ b`, written on the exact fraction by
cross-multiplying with the (positive) denominator; `decBoundsOk_iff` below
proves it equal to the comparison on rational values that the Python code
performs on the floats. -/
def decBoundsOk (p : DecNum) (b : Int) : Bool :=
  decide (-b * 10 ^ p.2 ≤ p.1) && decide (p.1 ≤ b * 10 ^ p.2)

/-- `extract_decimal_coords` (geo_tagger.py lines 114–120): first decimal
match, returned only when it passes the bounds check. -/
def extract_decimal_coords (text : String) : Option (ℚ × ℚ) :=
  match searchDecimal text.data with
  | some (lat, lon) =>
    if decBoundsOk lat 90 && decBoundsOk lon 180 then some (decVal lat, decVal lon)
    else none
  | none => none

/-- Match `\d{1,3}°\d{1,2}′H` with `H` drawn from `hemis`, at the head of
`l`; return degrees, minutes, the hemisphere letter and the rest. -/
def matchDMSHalf (hemis : List Char) (l : List Char) : Option (Nat × Nat × Char × List Char) :=
  let degDigits := (l.takeWhile Char.isDigit).take 3
  if degDigits.isEmpty then none
  else
    match l.drop degDigits.length with
    | '°' :: l1 =>
      let minDigits := (l1.takeWhile Char.isDigit).take 2
      if minDigits.isEmpty then none
      else
        match l1.drop minDigits.length with
        | '′' :: h :: l2 =>
          if hemis.contains h then some (digitsToNat degDigits, digitsToNat minDigits, h, l2)
          else none
        | _ => none
    | _ => none

/-- Match the whole DMS pattern at the head of `l`, returning the converted
`degrees + minutes/60` values (negated for S/W) in sixtieths of a degree,
exactly as geo_tagger.py lines 127–133 compute them. -/
def matchDMSPair (l : List Char) : Option (Int × Int) := do
  let (d1, m1, h1, r1) ← matchDMSHalf ['N', 'S'] l
  let ws := r1.takeWhile isSpaceChar
  if ws.isEmpty then none
  else
    let (d2, m2, h2, _) ← matchDMSHalf ['E', 'W'] (r1.drop ws.length)
    let lat60 : Int := d1 * 60 + m1
    let lon60 : Int := d2 * 60 + m2
    some (if h1 = 'S' then -lat60 else lat60, if h2 = 'W' then -lon60 else lon60)

/-- `re.search` for the DMS pattern. -/
def searchDMS : List Char → Option (Int × Int)
  | [] => none
  | c :: rest =>
    match matchDMSPair (c :: rest) with
    | some p => some p
    | none => searchDMS rest

/-- `extract_dms_coords` (geo_tagger.py lines 123–133): first DMS match,
converted and returned with no bounds validation. -/
def extract_dms_coords (text : String) : Option (ℚ × ℚ) :=
  (searchDMS text.data).map (fun p => ((p.1 : ℚ) / 60, (p.2 : ℚ) / 60))

/-! ## Geo-resolution pipeline (geo_tagger.py lines 206–237)

The two external effects — spaCy entity extraction and Nominatim geocoding —
are taken as function parameters: `extractNames` models
`extract_locations_spacy` and `geocode` models `geocode_cached` (returning
`(lat, lon, display_name)` on success, `none` on failure). -/

structure GeoResult where
  lat : ℚ
  lon : ℚ
  location_name : String
  country_code : String
deriving DecidableEq

/-- Country-code derivation from a geocoder display address
(geo_tagger.py lines 228–234): split on commas, last component stripped,
first two characters uppercased when long enough. -/
def countryFromDisplay (display : String) : String :=
  let parts := display.splitOn ","
  let country := (parts.getLastD "").trim
  if country.length ≥ 2 then (country.take 2).toUpper else ""

/-- The geocoding loop of `resolve_geo` (lines 224–235): first candidate that
geocodes successfully wins. -/
def firstGeocode (geocode : String → Option (ℚ × ℚ × String)) :
    List String → Option GeoResult
  | [] => none
  | loc :: rest =>
    match geocode loc with
    | some (lat, lon, display) => some ⟨lat, lon, loc, countryFromDisplay display⟩
    | none => firstGeocode geocode rest

/-- `resolve_geo` (geo_tagger.py lines 206–237).  An empty returned dict is
modelled as `none`.  `hint_locations = []` covers both Python `None` and an
empty hint list (both falsy at line 221). -/
def resolve_geo (extractNames : String → List String)
    (geocode : String → Option (ℚ × ℚ × String))
    (text : String) (hint_locations : List String) : Option GeoResult :=
  match (extract_decimal_coords text).orElse (fun _ => extract_dms_coords text) with
  | some (lat, lon) => some ⟨lat, lon, "", ""⟩
  | none =>
    let locations :=
      if hint_locations.isEmpty then extractNames text
      else hint_locations ++ extractNames text
    firstGeocode geocode locations

/-- The spec's description of `resolve` (spec §4.3): coordinate extractor
first (decimal then DMS), no geocoding in that case; otherwise the first
candidate from `hintNames ++ extractPlaceNames(text)` that geocodes
successfully; `none` when every stage fails. -/
def resolveSpec (extractNames : String → List String)
    (geocode : String → Option (ℚ × ℚ × String))
    (text : String) (hintNames : List String) : Option GeoResult :=
  match (extract_decimal_coords text).orElse (fun _ => extract_dms_coords text) with
  | some (lat, lon) => some ⟨lat, lon, "", ""⟩
  | none =>
    (hintNames ++ extractNames text).findSome? (fun loc =>
      (geocode loc).map (fun r => ⟨r.1, r.2.1, loc, countryFromDisplay r.2.2⟩))

/-! ## Identity functions (geo_tagger.py lines 240–241, twitter_scraper.py
lines 31–32): SHA-256 of the concatenated content, hex digest truncated to
16 characters.  SHA-256 is implemented here over `Nat` with explicit
`% 2 ^ 32` wrap-around, following FIPS 180-4. -/

def M32 : Nat := 2 ^ 32

/-- Right-rotation of a 32-bit word. -/
def rotr (n x : Nat) : Nat :=
  (x >>> n) + (x % 2 ^ n) * 2 ^ (32 - n)

def not32 (x : Nat) : Nat := (M32 - 1) - x

def ssig0 (x : Nat) : Nat := rotr 7 x ^^^ rotr 18 x ^^^ (x >>> 3)
def ssig1 (x : Nat) : Nat := rotr 17 x ^^^ rotr 19 x ^^^ (x >>> 10)
def bsig0 (x : Nat) : Nat := rotr 2 x ^^^ rotr 13 x ^^^ rotr 22 x
def bsig1 (x : Nat) : Nat := rotr 6 x ^^^ rotr 11 x ^^^ rotr 25 x

/-- The 64 SHA-256 round constants of FIPS 180-4 §4.2.2 (fractional parts of
the cube roots of the first 64 primes), written in decimal. -/
def shaK : List Nat :=
  [1116352408, 1899447441, 3049323471, 3921009573, 961987163,
   1508970993, 2453635748, 2870763221, 3624381080, 310598401,
   607225278, 1426881987, 1925078388, 2162078206, 2614888103,
   3248222580, 3835390401, 4022224774, 264347078, 604807628,
   770255983, 1249150122, 1555081692, 1996064986, 2554220882,
   2821834349, 2952996808, 3210313671, 3336571891, 3584528711,
   113926993, 338241895, 666307205, 773529912, 1294757372,
   1396182291, 1695183700, 1986661051, 2177026350, 2456956037,
   2730485921, 2820302411, 3259730800, 3345764771, 3516065817,
   3600352804, 4094571909, 275423344, 430227734, 506948616,
   659060556, 883997877, 958139571, 1322822218, 1537002063,
   1747873779, 1955562222, 2024104815, 2227730452, 2361852424,
   2428436474, 2756734187, 3204031479, 3329325298]

structure Hash8 where
  a : Nat
  b : Nat
  c : Nat
  d : Nat
  e : Nat
  f : Nat
  g : Nat
  h : Nat

/-- The SHA-256 initial hash value of FIPS 180-4 §5.3.3, in decimal. -/
def shaH0 : Hash8 :=
  ⟨1779033703, 3144134277, 1013904242, 2773480762,
   1359893119, 2600822924, 528734635, 1541459225⟩

/-- Extend the 16-word message schedule to 64 words; `rws` is the schedule so
far, most recent word first. -/
def extendW (rws : List Nat) : Nat → List Nat
  | 0 => rws
  | n + 1 =>
    extendW (((ssig1 (rws.getD 1 0) + rws.getD 6 0 + ssig0 (rws.getD 14 0) + rws.getD 15 0)
      % M32) :: rws) n

def schedule (block : List Nat) : List Nat :=
  (extendW block.reverse 48).reverse

/-- One compression round. -/
def shaRound (st : Hash8) (kw : Nat × Nat) : Hash8 :=
  let ch := (st.e &&& st.f) ^^^ (not32 st.e &&& st.g)
  let maj := (st.a &&& st.b) ^^^ (st.a &&& st.c) ^^^ (st.b &&& st.c)
  let t1 := (st.h + bsig1 st.e + ch + kw.1 + kw.2) % M32
  let t2 := (bsig0 st.a + maj) % M32
  ⟨(t1 + t2) % M32, st.a, st.b, st.c, (st.d + t1) % M32, st.e, st.f, st.g⟩

def sha256Compress (st : Hash8) (block : List Nat) : Hash8 :=
  let fin := (shaK.zip (schedule block)).foldl shaRound st
  ⟨(st.a + fin.a) % M32, (st.b + fin.b) % M32, (st.c + fin.c) % M32, (st.d + fin.d) % M32,
   (st.e + fin.e) % M32, (st.f + fin.f) % M32, (st.g + fin.g) % M32, (st.h + fin.h) % M32⟩

/-- Big-endian byte expansion. -/
def beBytes (count v : Nat) : List Nat :=
  (List.range count).map (fun i => v / 256 ^ (count - 1 - i) % 256)

/-- SHA-256 padding: `0x80`, zeros, then the 64-bit big-endian bit length. -/
def padMessage (msg : List Nat) : List Nat :=
  let L := msg.length
  let pz := (64 - (L + 9) % 64) % 64
  msg ++ [0x80] ++ List.replicate pz 0 ++ beBytes 8 (8 * L % 2 ^ 64)

/-- Pack padded bytes into 32-bit big-endian words. -/
def toWords : List Nat → List Nat
  | b1 :: b2 :: b3 :: b4 :: rest =>
    (b1 * 2 ^ 24 + b2 * 2 ^ 16 + b3 * 2 ^ 8 + b4) :: toWords rest
  | _ => []

/-- Split the word stream into 16-word blocks. -/
def toBlocks : List Nat → List (List Nat)
  | [] => []
  | w :: rest => ((w :: rest).take 16) :: toBlocks ((w :: rest).drop 16)
termination_by l => l.length
decreasing_by simp [List.length_drop]; omega

def hexDigit (n : Nat) : Char :=
  if n < 10 then Char.ofNat (48 + n) else Char.ofNat (87 + n)

def wordHex (w : Nat) : List Char :=
  [hexDigit (w / 16 ^ 7 % 16), hexDigit (w / 16 ^ 6 % 16), hexDigit (w / 16 ^ 5 % 16),
   hexDigit (w / 16 ^ 4 % 16), hexDigit (w / 16 ^ 3 % 16), hexDigit (w / 16 ^ 2 % 16),
   hexDigit (w / 16 % 16), hexDigit (w % 16)]

/-- `hashlib.sha256(bytes).hexdigest()` as a character list. -/
def sha256hexChars (msg : List Nat) : List Char :=
  let st := (toBlocks (toWords (padMessage msg))).foldl sha256Compress shaH0
  wordHex st.a ++ wordHex st.b ++ wordHex st.c ++ wordHex st.d ++
  wordHex st.e ++ wordHex st.f ++ wordHex st.g ++ wordHex st.h

/-- Python `str.encode()` (UTF-8 bytes). -/
def utf8Bytes (s : String) : List Nat :=
  s.toUTF8.toList.map (fun b => b.toNat)

/-- `make_event_id` (geo_tagger.py lines 240–241):
`sha256(f"{url}{title}".encode()).hexdigest()[:16]`. -/
def make_event_id (url title : String) : String :=
  String.mk ((sha256hexChars (utf8Bytes (url ++ title))).take 16)

/-- `_tweet_id` (twitter_scraper.py lines 31–32):
`sha256(f"{account}{text[:80]}".encode()).hexdigest()[:16]`. -/
def _tweet_id (account text : String) : String :=
  String.mk ((sha256hexChars (utf8Bytes (account ++ text.take 80))).take 16)

def isHexChar (c : Char) : Bool :=
  ('0' ≤ c && c ≤ '9') || ('a' ≤ c && c ≤ 'f')

def isHexStr (s : String) : Bool :=
  s.data.all isHexChar

/-! ## The event store (api/main.py lines 35–44)

A stored item is a JSON object: an ordered association list of keys to JSON
values (the array values appearing in this pipeline are arrays of strings).
The Redis keyspace is a partial map from key strings to `(ttl, payload)`. -/

inductive JVal where
  | jstr : String → JVal
  | jnum : ℚ → JVal
  | jbool : Bool → JVal
  | jnull : JVal
  | jstrList : List String → JVal
deriving DecidableEq

abbrev JDict := List (String × JVal)

def hasKey (k : String) (d : JDict) : Bool :=
  d.any (fun p => p.1 == k)

/-- `e['id']` for the payloads this pipeline stores (always a string). -/
def jStr (d : JDict) (k : String) : String :=
  match d.find? (fun p => p.1 == k) with
  | some (_, JVal.jstr s) => s
  | _ => ""

def Store : Type := String → Option (Nat × JDict)

/-- Redis `SETEX`: upsert with a fresh TTL. -/
def setex (store : Store) (key : String) (ttl : Nat) (v : JDict) : Store :=
  fun k => if k = key then some (ttl, v) else store k

/-- `store_events` (api/main.py lines 35–44): each event is written verbatim
under `prefix:id` with a 12-hour (43200 s) expiry. -/
def store_events (events : List JDict) (pre : String) (store : Store) : Store :=
  events.foldl (fun s e => setex s (pre ++ ":" ++ jStr e "id") 43200 e) store

/-- The normalized event dict built by `fetch_rss_feed`
(news_scraper.py lines 57–79) for one feed entry that geo-resolved: the
literal key set of the dict display at lines 64–79 plus the four keys of the
spread `**geo`. -/
def rssEvent (title summary url source published_at : String) (geo : GeoResult) : JDict :=
  let full_text := title ++ " " ++ summary
  [("id", .jstr (make_event_id url title)),
   ("title", .jstr title),
   ("summary", .jstr summary),
   ("url", .jstr url),
   ("source", .jstr source),
   ("source_type", .jstr "rss"),
   ("category", .jstr (classify_category full_text)),
   ("topics", .jstrList (classify_topics full_text)),
   ("severity", .jnum (classify_severity full_text : ℚ)),
   ("is_breaking", .jbool (is_breaking full_text)),
   ("media_urls", .jstrList []),
   ("raw_tags", .jstrList []),
   ("published_at", .jstr published_at),
   ("lat", .jnum geo.lat),
   ("lon", .jnum geo.lon),
   ("location_name", .jstr geo.location_name),
   ("country_code", .jstr geo.country_code)]

/-! ## The events query (api/main.py lines 134–176)

One stored event, as the query endpoint reads it back from JSON: every field
access in the handler goes through `dict.get`, so each field is optional.
`fromisoformat` is an external library call, abstracted as a `parseIso`
parameter returning a UTC epoch timestamp (the `tzinfo` defaulting at lines
157–158 is absorbed into it); the handler applies it after
`.replace("Z", "+00:00")`. -/

structure EventRec where
  lat : Option ℚ
  lon : Option ℚ
  published_at : Option String
  severity : Option Int
  category : Option String
  topics : Option (List String)
  is_breaking : Option Bool
  source_type : Option String
deriving DecidableEq

/-- Python `s.replace("Z", "+00:00")` (main.py line 156): every occurrence of
the single character `Z` is expanded. -/
def replaceZ : List Char → List Char
  | [] => []
  | c :: rest =>
    if c = 'Z' then '+' :: '0' :: '0' :: ':' :: '0' :: '0' :: replaceZ rest
    else c :: replaceZ rest

def pyReplaceZ (s : String) : String :=
  String.mk (replaceZ s.data)

/-- Python truthiness of `e.get(...)` for a JSON number: `None`, a missing
key and `0.0` are all falsy. -/
def numTruthy : Option ℚ → Bool
  | none => false
  | some v => decide (v ≠ 0)

/-- Python truthiness of an optional string parameter: `None` and `""` are
falsy. -/
def optStrTruthy : Option String → Bool
  | none => false
  | some s => s ≠ ""

/-- The conjunction of the `continue` guards in the loop at main.py lines
152–173, in source order. -/
def passesFilters (parseIso : String → Option Int) (cutoff : Int)
    (category topic : Option String) (min_severity : Int)
    (breaking_only : Bool) (source_type : Option String) (e : EventRec) : Bool :=
  (numTruthy e.lat && numTruthy e.lon) &&
  (match e.published_at with
   | none => false
   | some s =>
     match parseIso (pyReplaceZ s) with
     | none => false
     | some pub => decide (cutoff ≤ pub)) &&
  decide (min_severity ≤ e.severity.getD 1) &&
  (!optStrTruthy category || e.category == category) &&
  (!optStrTruthy topic || (e.topics.getD []).contains (topic.getD "")) &&
  (!breaking_only || e.is_breaking.getD false) &&
  (!optStrTruthy source_type || e.source_type == source_type)

def pubKey (e : EventRec) : String :=
  e.published_at.getD ""

/-- Stable insertion for the descending sort on `published_at`
(main.py line 175). -/
def insertDesc (x : EventRec) : List EventRec → List EventRec
  | [] => [x]
  | y :: ys => if pubKey y < pubKey x then x :: y :: ys else y :: insertDesc x ys

def sortPubDesc : List EventRec → List EventRec
  | [] => []
  | x :: xs => insertDesc x (sortPubDesc xs)

/-- `get_events` (api/main.py lines 134–176): filter, sort descending by
`published_at`, truncate to 500. -/
def get_events (parseIso : String → Option Int) (now : Int)
    (category topic : Option String) (min_severity hours : Int)
    (breaking_only : Bool) (source_type : Option String)
    (events : List EventRec) : List EventRec :=
  let cutoff := now - hours * 3600
  (sortPubDesc (events.filter
    (passesFilters parseIso cutoff category topic min_severity breaking_only source_type))).take 500

/-! ## Social adapter fallback (twitter_scraper.py lines 131–205)

The network is a parameter: `net url` is `.error` when the HTTP request
raises, and `.ok (status, body)` otherwise.  Extracting the up-to-10 parsed
tweets out of one instance's HTML page (BeautifulSoup, lines 142–180) is
abstracted as `parseTweets inst body`. -/

def NITTER_INSTANCES : List String :=
  ["https://nitter.net", "https://nitter.it", "https://nitter.poast.org"]

/-- The instance loop of `fetch_nitter` (lines 135–187): `acc` is the
`tweets` accumulator, a request error or non-200 status skips to the next
instance, and a non-empty accumulator after an instance breaks the loop. -/
def nitterLoop {β τ : Type} (net : String → Except Unit (Nat × β))
    (parseTweets : String → β → List τ) (account : String) :
    List String → List τ → List τ
  | [], acc => acc
  | inst :: rest, acc =>
    match net (inst ++ "/" ++ account) with
    | .error _ => nitterLoop net parseTweets account rest acc
    | .ok (status, body) =>
      if status ≠ 200 then nitterLoop net parseTweets account rest acc
      else
        let acc' := acc ++ parseTweets inst body
        if acc'.isEmpty then nitterLoop net parseTweets account rest acc' else acc'

/-- `fetch_nitter` (twitter_scraper.py lines 131–189). -/
def fetch_nitter {β τ : Type} (net : String → Except Unit (Nat × β))
    (parseTweets : String → β → List τ) (account : String) : List τ :=
  nitterLoop net parseTweets account NITTER_INSTANCES []

/-- `scrape_osint_account` (twitter_scraper.py lines 194–205): primary API
when a bearer token is configured, nitter fallback when that yielded
nothing.  The primary fetch is the parameter `primary`. -/
def scrape_osint_account {β τ : Type} (bearer : String) (primary : Unit → List τ)
    (net : String → Except Unit (Nat × β)) (parseTweets : String → β → List τ)
    (account : String) : List τ :=
  let tweets := if bearer ≠ "" then primary () else []
  if tweets.isEmpty then fetch_nitter net parseTweets account else tweets

/-- The spec's description of the fallback (spec §4.6, §8): mirrors tried
strictly in order; a failing or non-200 mirror is skipped; the first mirror
yielding any items supplies the result; all mirrors failing yields `[]`. -/
def nitterSpec {β τ : Type} (net : String → Except Unit (Nat × β))
    (parseTweets : String → β → List τ) (account : String) : List τ :=
  match NITTER_INSTANCES.findSome? (fun inst =>
    match net (inst ++ "/" ++ account) with
    | .error _ => none
    | .ok (status, body) =>
      if status ≠ 200 then none
      else
        let ts := parseTweets inst body
        if ts.isEmpty then none else some ts) with
  | some ts => ts
  | none => []

/-! ## Concrete fixtures used to exercise the query and adapter models -/

/-- A timestamp parser fixture: recognises exactly one normalized timestamp. -/
def sampleParseIso : String → Option Int :=
  fun s => if s = "2026-01-01T00:00:00+00:00" then some 0 else none

/-- A stored event that satisfies every filter of the sample query. -/
def sampleEvent : EventRec :=
  ⟨some 1, some 2, some "2026-01-01T00:00:00Z", some 3, some "conflict",
   some ["war"], some true, some "rss"⟩

/-- A stored event sitting exactly on the equator (`lat = 0.0`). -/
def zeroLatEvent : EventRec :=
  ⟨some 0, some 2, some "2026-01-01T00:00:00Z", some 3, none, none, none, none⟩

/-- A network fixture: the first mirror raises, the second returns HTTP 503,
the third returns HTTP 200 with body `7`. -/
def netFx : String → Except Unit (Nat × Nat) :=
  fun url =>
    if url = "https://nitter.net/acct" then .error ()
    else if url = "https://nitter.it/acct" then .ok (503, 0)
    else .ok (200, 7)

/-- A parser fixture: body `7` parses to one tweet. -/
def parseFx : String → Nat → List Nat :=
  fun _ b => if b = 7 then [42] else []

/-! ## General lemmas -/

theorem decBoundsOk_iff (p : DecNum) (b : Int) :
    decBoundsOk p b = true ↔ (-(b : ℚ) ≤ decVal p ∧ decVal p ≤ (b : ℚ)) := by
  obtain ⟨n, k⟩ := p
  have hpow : (0 : ℚ) < (10 : ℚ) ^ k := by positivity
  constructor
  · rintro h
    simp only [decBoundsOk, Bool.and_eq_true, decide_eq_true_eq] at h
    obtain ⟨h1, h2⟩ := h
    constructor
    · rw [decVal, le_div_iff₀ hpow]
      have h1' : ((-b * 10 ^ k : Int) : ℚ) ≤ ((n : Int) : ℚ) := by exact_mod_cast h1
      push_cast at h1' ⊢
      linarith
    · rw [decVal, div_le_iff₀ hpow]
      have h2' : ((n : Int) : ℚ) ≤ ((b * 10 ^ k : Int) : ℚ) := by exact_mod_cast h2
      push_cast at h2' ⊢
      linarith
  · rintro ⟨h1, h2⟩
    rw [decVal, le_div_iff₀ hpow] at h1
    rw [decVal, div_le_iff₀ hpow] at h2
    simp only [decBoundsOk, Bool.and_eq_true, decide_eq_true_eq]
    constructor
    · have h1' : ((-b * 10 ^ k : Int) : ℚ) ≤ ((n : Int) : ℚ) := by push_cast; linarith
      exact_mod_cast h1'
    · have h2' : ((n : Int) : ℚ) ≤ ((b * 10 ^ k : Int) : ℚ) := by push_cast; linarith
      exact_mod_cast h2'

theorem breakingLoop_eq (tl : String) (kws : List String) :
    breakingLoop tl kws =
      if kws.any (fun kw => kwIn kw tl) then
        some (match firstCat tl ["conflict", "disaster", "politics"] with
              | some cat => cat
              | none => "breaking")
      else none := by
  induction kws with
  | nil => rfl
  | cons kw rest ih =>
    by_cases hk : kwIn kw tl = true
    · simp [breakingLoop, hk]
    · simp [breakingLoop, hk, ih]

theorem topicsLoop_mem (tl : String) (l : String) :
    ∀ tables : List (String × List String),
      l ∈ topicsLoop tl tables ↔
        ∃ kws, (l, kws) ∈ tables ∧ kws.any (fun kw => kwIn kw tl) = true := by
  intro tables
  induction tables with
  | nil => simp [topicsLoop]
  | cons p rest ih =>
    obtain ⟨topic, kws⟩ := p
    cases hk : kws.any (fun kw => kwIn kw tl) with
    | true =>
      simp only [topicsLoop, hk, if_true, List.mem_cons, ih, Prod.mk.injEq]
      constructor
      · rintro (rfl | ⟨kws', hmem, hany⟩)
        · exact ⟨kws, Or.inl ⟨rfl, rfl⟩, hk⟩
        · exact ⟨kws', Or.inr hmem, hany⟩
      · rintro ⟨kws', ⟨rfl, rfl⟩ | hmem, hany⟩
        · exact Or.inl rfl
        · exact Or.inr ⟨kws', hmem, hany⟩
    | false =>
      simp only [topicsLoop, hk, Bool.false_eq_true, if_false, ih, List.mem_cons,
        Prod.mk.injEq]
      constructor
      · rintro ⟨kws', hmem, hany⟩
        exact ⟨kws', Or.inr hmem, hany⟩
      · rintro ⟨kws', ⟨rfl, rfl⟩ | hmem, hany⟩
        · exact absurd hany (by simp [hk])
        · exact ⟨kws', hmem, hany⟩

theorem firstGeocode_eq_findSome (g : String → Option (ℚ × ℚ × String)) :
    ∀ locs : List String,
      firstGeocode g locs =
        locs.findSome? (fun loc =>
          (g loc).map (fun r => ⟨r.1, r.2.1, loc, countryFromDisplay r.2.2⟩)) := by
  intro locs
  induction locs with
  | nil => rfl
  | cons loc rest ih =>
    rw [firstGeocode, List.findSome?_cons]
    cases hg : g loc with
    | none => simpa [hg] using ih
    | some r => simp [hg]

theorem mem_insertDesc (a x : EventRec) (l : List EventRec) :
    a ∈ insertDesc x l ↔ a = x ∨ a ∈ l := by
  induction l with
  | nil => simp [insertDesc]
  | cons y ys ih =>
    by_cases hlt : pubKey y < pubKey x
    · simp [insertDesc, hlt]
    · simp only [insertDesc, if_neg hlt, List.mem_cons, ih]
      tauto

theorem mem_sortPubDesc (a : EventRec) (l : List EventRec) :
    a ∈ sortPubDesc l ↔ a ∈ l := by
  induction l with
  | nil => simp [sortPubDesc]
  | cons x xs ih =>
    simp only [sortPubDesc, mem_insertDesc, ih, List.mem_cons]

theorem mem_get_events (parseIso : String → Option Int) (now : Int)
    (category topic : Option String) (min_severity hours : Int)
    (breaking_only : Bool) (source_type : Option String)
    (events : List EventRec) (e : EventRec)
    (h : e ∈ get_events parseIso now category topic min_severity hours breaking_only source_type events) :
    e ∈ events ∧
      passesFilters parseIso (now - hours * 3600) category topic min_severity
        breaking_only source_type e = true := by
  unfold get_events at h
  have h1 : e ∈ sortPubDesc (events.filter
      (passesFilters parseIso (now - hours * 3600) category topic min_severity
        breaking_only source_type)) := List.take_subset 500 _ h
  have h2 := (mem_sortPubDesc e _).1 h1
  exact ⟨(List.mem_filter.1 h2).1, (List.mem_filter.1 h2).2⟩

theorem store_events_mem (pre : String) :
    ∀ (events : List JDict) (s : Store) (k : String) (ttl : Nat) (v : JDict),
      store_events events pre s k = some (ttl, v) →
      v ∈ events ∨ s k = some (ttl, v) := by
  intro events
  induction events with
  | nil => intro s k ttl v h; exact Or.inr h
  | cons e rest ih =>
    intro s k ttl v h
    have h' : store_events rest pre (setex s (pre ++ ":" ++ jStr e "id") 43200 e) k
        = some (ttl, v) := h
    rcases ih _ k ttl v h' with hmem | hold
    · exact Or.inl (List.mem_cons_of_mem _ hmem)
    · by_cases hk : k = pre ++ ":" ++ jStr e "id"
      · rw [setex, if_pos hk] at hold
        obtain ⟨h1, h2⟩ := Prod.mk.injEq .. ▸ Option.some.injEq .. ▸ hold
        exact Or.inl (h2 ▸ List.mem_cons_self e rest)
      · rw [setex, if_neg hk] at hold
        exact Or.inr hold

theorem nitterLoop_spec {β τ : Type} (net : String → Except Unit (Nat × β))
    (parseTweets : String → β → List τ) (account : String) :
    ∀ l : List String,
      nitterLoop net parseTweets account l [] =
        match l.findSome? (fun inst =>
          match net (inst ++ "/" ++ account) with
          | .error _ => none
          | .ok (status, body) =>
            if status ≠ 200 then none
            else
              let ts := parseTweets inst body
              if ts.isEmpty then none else some ts) with
        | some ts => ts
        | none => [] := by
  intro l
  induction l with
  | nil => rfl
  | cons inst rest ih =>
    rw [nitterLoop, List.findSome?_cons]
    cases hn : net (inst ++ "/" ++ account) with
    | error u => simpa using ih
    | ok sb =>
      obtain ⟨status, body⟩ := sb
      by_cases hs : status ≠ 200
      · simpa [hs] using ih
      · simp only [hs, if_false, List.nil_append]
        by_cases he : (parseTweets inst body).isEmpty = true
        · have hnil : parseTweets inst body = [] := by
            simpa using he
          simpa [he, hnil] using ih
        · simp [he]

theorem sha256hexChars_length (msg : List Nat) :
    (sha256hexChars msg).length = 64 := by
  simp [sha256hexChars, wordHex]

theorem hexDigit_isHex (n : Nat) (h : n < 16) : isHexChar (hexDigit n) = true := by
  interval_cases n <;> decide

theorem mem_wordHex_isHex (w : Nat) (c : Char) (h : c ∈ wordHex w) :
    isHexChar c = true := by
  simp only [wordHex, List.mem_cons, List.not_mem_nil, or_false] at h
  rcases h with rfl | rfl | rfl | rfl | rfl | rfl | rfl | rfl <;>
    exact hexDigit_isHex _ (Nat.mod_lt _ (by norm_num))

theorem sha256hexChars_hex (msg : List Nat) (c : Char)
    (h : c ∈ sha256hexChars msg) : isHexChar c = true := by
  simp only [sha256hexChars, List.mem_append] at h
  rcases h with ((((((h | h) | h) | h) | h) | h) | h) | h <;>
    exact mem_wordHex_isHex _ _ h

/-! ## Claims -/

/-- Claim C1, counterexample: the claim asserts that any pair returned by
`extract_dms_coords` lies inside `[-90,90]×[-180,180]` and that out-of-range
matches are discarded; on the input `"at 91°00′N 0°30′E now"` the DMS
extractor returns latitude `91 > 90` because it performs no bounds check. -/
theorem claim_C1_counterexample :
    extract_dms_coords "at 91°00′N 0°30′E now" = some (91, 1/2) ∧ ¬((91 : ℚ) ≤ 90) := by
  constructor
  · have h : searchDMS "at 91°00′N 0°30′E now".data = some (5460, 30) := by decide
    rw [extract_dms_coords, h]
    norm_num
  · norm_num

/-- Claim C1, amended: every coordinate pair returned by
`extract_decimal_coords` satisfies `-90 ≤ lat ≤ 90` and `-180 ≤ lon ≤ 180`
(an out-of-range decimal match is discarded and yields no coordinate); the
DMS extractor returns its first match unvalidated. -/
theorem claim_C1_decimal_bounds (text : String) (lat lon : ℚ)
    (h : extract_decimal_coords text = some (lat, lon)) :
    -90 ≤ lat ∧ lat ≤ 90 ∧ -180 ≤ lon ∧ lon ≤ 180 := by
  rw [extract_decimal_coords] at h
  cases hs : searchDecimal text.data with
  | none => rw [hs] at h; exact absurd h (by simp)
  | some pq =>
    obtain ⟨p, q⟩ := pq
    rw [hs] at h
    dsimp only at h
    by_cases hb : (decBoundsOk p 90 && decBoundsOk q 180) = true
    · rw [if_pos hb] at h
      have hb' := hb
      simp only [Bool.and_eq_true] at hb'
      obtain ⟨hb1, hb2⟩ := hb'
      have h' := Option.some.inj h
      obtain ⟨h1, h2⟩ := Prod.mk.injEq .. ▸ h'
      subst h1
      subst h2
      have c1 := (decBoundsOk_iff p 90).1 hb1
      have c2 := (decBoundsOk_iff q 180).1 hb2
      norm_num at c1 c2
      exact ⟨c1.1, c1.2, c2.1, c2.2⟩
    · rw [if_neg hb] at h
      exact absurd h (by simp)

/-- Claim C1, witness: the text `"Earthquake of magnitude 7.1 strikes near
35.68,139.69"` yields the in-bounds pair `(35.68, 139.69)`. -/
theorem claim_C1_decimal_bounds_witness :
    -90 ≤ (35.68 : ℚ) ∧ (35.68 : ℚ) ≤ 90 ∧ -180 ≤ (139.69 : ℚ) ∧ (139.69 : ℚ) ≤ 180 :=
  claim_C1_decimal_bounds "Earthquake of magnitude 7.1 strikes near 35.68,139.69"
    35.68 139.69 (by
      have h : searchDecimal "Earthquake of magnitude 7.1 strikes near 35.68,139.69".data
          = some ((3568, 2), (13969, 2)) := by decide
      rw [extract_decimal_coords, h]
      norm_num [decVal, decBoundsOk])

/-- Claim C2, counterexample: on `"Earthquake of magnitude 7.1 strikes near
35.68,139.69"` the category is not "disaster" (the conflict keyword "strike"
matches first, via "strikes") and the severity is below 3 (no severity
keyword occurs in the text). -/
theorem claim_C2_counterexample :
    classify_category "Earthquake of magnitude 7.1 strikes near 35.68,139.69" ≠ "disaster" ∧
    classify_severity "Earthquake of magnitude 7.1 strikes near 35.68,139.69" < 3 := by
  decide

/-- Claim C2, amended: for that text, the coordinate-extraction stage of
`resolve_geo` returns `(35.68, 139.69)` and `classify_topics` includes
"natural_disasters", but `classify_category` returns "conflict" (not
"disaster") and `classify_severity` returns 1 (not ≥ 3). -/
theorem claim_C2_example_text :
    extract_decimal_coords "Earthquake of magnitude 7.1 strikes near 35.68,139.69"
      = some (35.68, 139.69) ∧
    (∀ (en : String → List String) (g : String → Option (ℚ × ℚ × String)),
      resolve_geo en g "Earthquake of magnitude 7.1 strikes near 35.68,139.69" []
        = some ⟨35.68, 139.69, "", ""⟩) ∧
    classify_category "Earthquake of magnitude 7.1 strikes near 35.68,139.69" = "conflict" ∧
    "natural_disasters" ∈ classify_topics "Earthquake of magnitude 7.1 strikes near 35.68,139.69" ∧
    classify_severity "Earthquake of magnitude 7.1 strikes near 35.68,139.69" = 1 := by
  have hd : extract_decimal_coords "Earthquake of magnitude 7.1 strikes near 35.68,139.69"
      = some (35.68, 139.69) := by
    have h : searchDecimal "Earthquake of magnitude 7.1 strikes near 35.68,139.69".data
        = some ((3568, 2), (13969, 2)) := by decide
    rw [extract_decimal_coords, h]
    norm_num [decVal, decBoundsOk]
  refine ⟨hd, ?_, by decide, by decide, by decide⟩
  intro en g
  rw [resolve_geo, hd]
  simp [Option.orElse]

/-- Claim C3: `classify_category` implements the breaking-demotion rule
described by the spec (`categorySpec`), and its result is always one of
conflict, disaster, politics, breaking, general. -/
theorem claim_C3_category_rule (text : String) :
    classify_category text = categorySpec text ∧
    classify_category text ∈ ["conflict", "disaster", "politics", "breaking", "general"] := by
  have heq : classify_category text = categorySpec text := by
    simp only [classify_category, categorySpec]
    rw [breakingLoop_eq]
    by_cases hb : ((catKws "breaking").any fun kw => kwIn kw (pyLower text)) = true <;>
    by_cases h1 : ((catKws "conflict").any fun kw => kwIn kw (pyLower text)) = true <;>
    by_cases h2 : ((catKws "disaster").any fun kw => kwIn kw (pyLower text)) = true <;>
    by_cases h3 : ((catKws "politics").any fun kw => kwIn kw (pyLower text)) = true <;>
    simp [firstCat, hb, h1, h2, h3]
  refine ⟨heq, ?_⟩
  rw [heq, categorySpec]
  split_ifs <;> simp

/-- Claim C4: every item returned by the events query satisfies all supplied
predicates — its `published_at` parses (after the `Z` expansion) to a
timestamp no older than the recency cutoff, its severity is at least the
requested minimum, its category, topic membership, breaking flag and source
type match whenever the corresponding predicate is supplied. -/
theorem claim_C4_filter_correctness (parseIso : String → Option Int) (now : Int)
    (category topic : Option String) (min_severity hours : Int)
    (breaking_only : Bool) (source_type : Option String)
    (events : List EventRec) (e : EventRec)
    (h : e ∈ get_events parseIso now category topic min_severity hours
      breaking_only source_type events) :
    (∃ s pub, e.published_at = some s ∧ parseIso (pyReplaceZ s) = some pub ∧
      now - hours * 3600 ≤ pub) ∧
    min_severity ≤ e.severity.getD 1 ∧
    (optStrTruthy category = true → e.category = category) ∧
    (optStrTruthy topic = true → topic.getD "" ∈ e.topics.getD []) ∧
    (breaking_only = true → e.is_breaking.getD false = true) ∧
    (optStrTruthy source_type = true → e.source_type = source_type) := by
  obtain ⟨_, hf⟩ := mem_get_events _ _ _ _ _ _ _ _ _ _ h
  simp only [passesFilters, Bool.and_eq_true] at hf
  obtain ⟨⟨⟨⟨⟨⟨⟨hlat, hlon⟩, hpub⟩, hsev⟩, hcat⟩, htop⟩, hbrk⟩, hsrc⟩ := hf
  refine ⟨?_, ?_, ?_, ?_, ?_, ?_⟩
  · cases epub : e.published_at with
    | none => rw [epub] at hpub; exact absurd hpub (by simp)
    | some s =>
      rw [epub] at hpub
      dsimp only at hpub
      cases hp : parseIso (pyReplaceZ s) with
      | none => rw [hp] at hpub; exact absurd hpub (by simp)
      | some pub =>
        rw [hp] at hpub
        exact ⟨s, pub, rfl, hp, by simpa using hpub⟩
  · exact of_decide_eq_true hsev
  · intro hc
    simp only [hc, Bool.not_true, Bool.false_or, beq_iff_eq] at hcat
    exact hcat
  · intro ht
    simp only [ht, Bool.not_true, Bool.false_or] at htop
    simpa [List.contains] using htop
  · intro hb
    simp only [hb, Bool.not_true, Bool.false_or] at hbrk
    exact hbrk
  · intro hs
    simp only [hs, Bool.not_true, Bool.false_or, beq_iff_eq] at hsrc
    exact hsrc

/-- Claim C4, witness: a concrete event passing a fully-specified query. -/
theorem claim_C4_filter_correctness_witness :
    (∃ s pub, sampleEvent.published_at = some s ∧
      sampleParseIso (pyReplaceZ s) = some pub ∧ (0 : Int) - 6 * 3600 ≤ pub) ∧
    (1 : Int) ≤ sampleEvent.severity.getD 1 ∧
    (optStrTruthy (some "conflict") = true → sampleEvent.category = some "conflict") ∧
    (optStrTruthy (some "war") = true →
      (some "war" : Option String).getD "" ∈ sampleEvent.topics.getD []) ∧
    (true = true → sampleEvent.is_breaking.getD false = true) ∧
    (optStrTruthy (some "rss") = true → sampleEvent.source_type = some "rss") :=
  claim_C4_filter_correctness sampleParseIso 0 (some "conflict") (some "war") 1 6
    true (some "rss") [sampleEvent] sampleEvent (by decide)

/-- Claim C5, counterexample: the claim asserts the store sets `fetched_at`
on every item at write time; on a concrete RSS-shaped item, `store_events`
stores the payload verbatim and the stored item has no `fetched_at` key. -/
theorem claim_C5_counterexample :
    store_events
      [rssEvent "T" "S" "http://u" "TASS" "2026-02-02T00:00:00" ⟨5, 6, "", ""⟩]
      "event" (fun _ => none) ("event:" ++ make_event_id "http://u" "T")
      = some (43200, rssEvent "T" "S" "http://u" "TASS" "2026-02-02T00:00:00" ⟨5, 6, "", ""⟩) ∧
    hasKey "fetched_at"
      (rssEvent "T" "S" "http://u" "TASS" "2026-02-02T00:00:00" ⟨5, 6, "", ""⟩) = false := by
  constructor
  · simp [store_events, setex, jStr, rssEvent]
  · rfl

/-- Claim C5, amended: `store_events` writes each item verbatim under
`prefix:id` (it never adds or sets a field), and the items the RSS adapter
produces carry no `fetched_at` key at all. -/
theorem claim_C5_store_verbatim (events : List JDict) (pre : String) (s : Store)
    (k : String) (ttl : Nat) (v : JDict)
    (h : store_events events pre s k = some (ttl, v)) :
    (v ∈ events ∨ s k = some (ttl, v)) ∧
    (∀ title summary url source pub geo,
      hasKey "fetched_at" (rssEvent title summary url source pub geo) = false) := by
  refine ⟨store_events_mem pre events s k ttl v h, ?_⟩
  intro title summary url source pub geo
  rfl

/-- Claim C5, witness: the verbatim-write fact at a concrete one-item batch. -/
theorem claim_C5_store_verbatim_witness :
    (rssEvent "Quake" "shaking" "http://n/1" "BBC World" "2026-01-01T00:00:00" ⟨7, 8, "", ""⟩
        ∈ [rssEvent "Quake" "shaking" "http://n/1" "BBC World" "2026-01-01T00:00:00" ⟨7, 8, "", ""⟩] ∨
      (fun _ => none : Store) ("event:" ++ make_event_id "http://n/1" "Quake")
        = some (43200,
            rssEvent "Quake" "shaking" "http://n/1" "BBC World" "2026-01-01T00:00:00" ⟨7, 8, "", ""⟩)) ∧
    (∀ title summary url source pub geo,
      hasKey "fetched_at" (rssEvent title summary url source pub geo) = false) :=
  claim_C5_store_verbatim
    [rssEvent "Quake" "shaking" "http://n/1" "BBC World" "2026-01-01T00:00:00" ⟨7, 8, "", ""⟩]
    "event" (fun _ => none) ("event:" ++ make_event_id "http://n/1" "Quake") 43200
    (rssEvent "Quake" "shaking" "http://n/1" "BBC World" "2026-01-01T00:00:00" ⟨7, 8, "", ""⟩)
    (by simp [store_events, setex, jStr, rssEvent])

theorem sha16_length (msg : List Nat) :
    (String.mk ((sha256hexChars msg).take 16)).length = 16 := by
  show ((sha256hexChars msg).take 16).length = 16
  rw [List.length_take, sha256hexChars_length]
  omega

theorem sha16_hex (msg : List Nat) :
    isHexStr (String.mk ((sha256hexChars msg).take 16)) = true := by
  rw [isHexStr]
  refine List.all_eq_true.2 ?_
  intro c hc
  exact sha256hexChars_hex msg c (List.take_subset _ _ hc)

/-- Claim C6: `make_event_id` is deterministic in `(url, title)` and
`_tweet_id` is deterministic in the account and the first 80 characters of
the text, and both produce 16-character hexadecimal identifiers. -/
theorem claim_C6_id_stability (u t u' t' a t1 t2 : String)
    (h1 : u = u') (h2 : t = t') (h3 : t1.take 80 = t2.take 80) :
    make_event_id u t = make_event_id u' t' ∧
    (make_event_id u t).length = 16 ∧ isHexStr (make_event_id u t) = true ∧
    _tweet_id a t1 = _tweet_id a t2 ∧
    (_tweet_id a t1).length = 16 ∧ isHexStr (_tweet_id a t1) = true := by
  subst h1
  subst h2
  refine ⟨rfl, ?_, ?_, ?_, ?_, ?_⟩
  · rw [make_event_id]; exact sha16_length _
  · rw [make_event_id]; exact sha16_hex _
  · rw [_tweet_id, _tweet_id, h3]
  · rw [_tweet_id]; exact sha16_length _
  · rw [_tweet_id]; exact sha16_hex _

set_option maxRecDepth 4096 in
/-- Claim C6, witness: two texts that agree on their first 80 characters and
differ afterwards get the same tweet id. -/
theorem claim_C6_id_stability_witness :
    make_event_id "https://u" "Title" = make_event_id "https://u" "Title" ∧
    (make_event_id "https://u" "Title").length = 16 ∧
    isHexStr (make_event_id "https://u" "Title") = true ∧
    _tweet_id "acct" "01234567890123456789012345678901234567890123456789012345678901234567890123456789AAA"
      = _tweet_id "acct" "01234567890123456789012345678901234567890123456789012345678901234567890123456789BBB" ∧
    (_tweet_id "acct" "01234567890123456789012345678901234567890123456789012345678901234567890123456789AAA").length = 16 ∧
    isHexStr (_tweet_id "acct" "01234567890123456789012345678901234567890123456789012345678901234567890123456789AAA") = true :=
  claim_C6_id_stability "https://u" "Title" "https://u" "Title" "acct"
    "01234567890123456789012345678901234567890123456789012345678901234567890123456789AAA"
    "01234567890123456789012345678901234567890123456789012345678901234567890123456789BBB"
    rfl rfl (by decide)

/-- Claim C7: `resolve_geo` implements the ordered fallback described by the
spec (`resolveSpec`): a coordinate hit (decimal, then DMS) returns that pair
with empty display strings and consults the geocoder for nothing; otherwise
the candidates `hintNames ++ extracted` are geocoded in order with the first
success winning, and the result is empty when everything fails. -/
theorem claim_C7_resolve_order (en : String → List String)
    (g : String → Option (ℚ × ℚ × String)) (text : String) (hints : List String) :
    resolve_geo en g text hints = resolveSpec en g text hints := by
  rw [resolve_geo, resolveSpec]
  cases hc : (extract_decimal_coords text).orElse (fun _ => extract_dms_coords text) with
  | some p => rfl
  | none =>
    dsimp only
    rw [firstGeocode_eq_findSome]
    cases hints with
    | nil => simp
    | cons a l => simp [List.isEmpty]

/-- Claim C8: a label is in `classify_topics text` iff its keyword table has
a case-insensitive substring hit in the text (one hit per table suffices),
and the resulting label set is invariant under permuting the topic tables. -/
theorem claim_C8_topics_union (text l : String) (t1 t2 : List (String × List String))
    (hp : t1.Perm t2) :
    (l ∈ classify_topics text ↔
      ∃ kws, (l, kws) ∈ TOPIC_KEYWORDS ∧
        kws.any (fun kw => kwIn kw (pyLower text)) = true) ∧
    (l ∈ topicsLoop (pyLower text) t1 ↔ l ∈ topicsLoop (pyLower text) t2) := by
  constructor
  · rw [classify_topics]
    exact topicsLoop_mem _ _ _
  · rw [topicsLoop_mem, topicsLoop_mem]
    constructor
    · rintro ⟨kws, hmem, hany⟩
      exact ⟨kws, hp.mem_iff.1 hmem, hany⟩
    · rintro ⟨kws, hmem, hany⟩
      exact ⟨kws, hp.mem_iff.2 hmem, hany⟩

/-- Claim C8, witness: concrete text, label and a two-table permutation. -/
theorem claim_C8_topics_union_witness :
    ("war" ∈ classify_topics "war and protest" ↔
      ∃ kws, ("war", kws) ∈ TOPIC_KEYWORDS ∧
        kws.any (fun kw => kwIn kw (pyLower "war and protest")) = true) ∧
    ("war" ∈ topicsLoop (pyLower "war and protest") [("war", ["war"]), ("protests", ["protest"])] ↔
      "war" ∈ topicsLoop (pyLower "war and protest") [("protests", ["protest"]), ("war", ["war"])]) :=
  claim_C8_topics_union "war and protest" "war"
    [("war", ["war"]), ("protests", ["protest"])]
    [("protests", ["protest"]), ("war", ["war"])]
    (List.Perm.swap ("protests", ["protest"]) ("war", ["war"]) [])

/-- Claim C9: when the primary fetch yields zero items the social adapter
falls back to `fetch_nitter`, and `fetch_nitter` equals its specification:
mirrors are tried strictly in order, an erroring or non-200 mirror is
skipped, the first mirror yielding any items supplies the result, and all
mirrors failing yields the empty list (never an exception — the model is a
total function). -/
theorem claim_C9_social_fallback {β τ : Type} (bearer : String)
    (primary : Unit → List τ) (net : String → Except Unit (Nat × β))
    (parseTweets : String → β → List τ) (account : String)
    (h : primary () = []) :
    scrape_osint_account bearer primary net parseTweets account
      = fetch_nitter net parseTweets account ∧
    fetch_nitter net parseTweets account = nitterSpec net parseTweets account := by
  constructor
  · simp [scrape_osint_account, h]
  · rw [fetch_nitter, nitterSpec]
    exact nitterLoop_spec net parseTweets account NITTER_INSTANCES

/-- Claim C9, witness: an empty primary result with a mirror chain that
errors, then returns 503, then succeeds. -/
theorem claim_C9_social_fallback_witness :
    scrape_osint_account "token" (fun _ => ([] : List Nat)) netFx parseFx "acct"
      = fetch_nitter netFx parseFx "acct" ∧
    fetch_nitter netFx parseFx "acct" = nitterSpec netFx parseFx "acct" :=
  claim_C9_social_fallback "token" (fun _ => ([] : List Nat)) netFx parseFx "acct" rfl

/-- Claim C10: the events query's geo-presence check is a truthiness test,
so an event whose `lat` or `lon` is exactly `0.0` (or missing) is never
returned, even though `(0.0, lon)` is a valid equator/prime-meridian
coordinate. -/
theorem claim_C10_zero_coord_excluded (parseIso : String → Option Int) (now : Int)
    (category topic : Option String) (min_severity hours : Int)
    (breaking_only : Bool) (source_type : Option String)
    (events : List EventRec) (e : EventRec)
    (h : e.lat = some 0 ∨ e.lon = some 0 ∨ e.lat = none ∨ e.lon = none) :
    e ∉ get_events parseIso now category topic min_severity hours
      breaking_only source_type events := by
  intro hmem
  obtain ⟨_, hf⟩ := mem_get_events _ _ _ _ _ _ _ _ _ _ hmem
  simp only [passesFilters, Bool.and_eq_true] at hf
  obtain ⟨⟨⟨⟨⟨⟨⟨hlat, hlon⟩, _⟩, _⟩, _⟩, _⟩, _⟩, _⟩ := hf
  rcases h with h | h | h | h
  · rw [h] at hlat; simp [numTruthy] at hlat
  · rw [h] at hlon; simp [numTruthy] at hlon
  · rw [h] at hlat; simp [numTruthy] at hlat
  · rw [h] at hlon; simp [numTruthy] at hlon

/-- Claim C10, witness: a concrete equator event (`lat = 0.0`) is excluded
from a query that it would otherwise satisfy. -/
theorem claim_C10_zero_coord_excluded_witness :
    zeroLatEvent ∉ get_events sampleParseIso 0 none none 1 6 false none [zeroLatEvent] :=
  claim_C10_zero_coord_excluded sampleParseIso 0 none none 1 6 false none
    [zeroLatEvent] zeroLatEvent (Or.inl rfl)

end OsintMonitor
